import Mathlib

/-!
Verification of the myreze data-package core (src/myreze/data/core.py)
against its natural-language specification.

The Python source is shallowly embedded: classes become structures,
methods become functions, raised exceptions become `Except` errors, and
the one piece of mutable state the code manipulates (the `data` dict of a
package, copied and updated inside `to_dict`) is modelled with an explicit
heap of dictionaries.  The external `isodate.parse_datetime` routine is
modelled as an arbitrary partial parse function `String → Option D` into a
linearly ordered type `D` of datetimes; `None` models the `ValueError` the
library raises on a malformed string.
-/

namespace Myreze

/-! ## Time (core.py lines 24-85) -/

/-- Python value stored in `Time.value`: the constructor receives
`Union[str, dict, List[str]]`.  `vdict` models the dictionary shape as an
association list of string keys to string values, covering the dicts the
`span` classmethod builds and `from_dict` forwards. -/
inductive TimeVal where
  | vstr (s : String)
  | vdict (entries : List (String × String))
  | vlist (ts : List String)
deriving DecidableEq

/-- The `Time` object: the two attributes assigned in `Time.__init__`
(core.py lines 27-29). -/
structure Time where
  type : String
  value : TimeVal
deriving DecidableEq

/-- Exceptions raised by `Time._validate` (core.py lines 32-61), one
constructor per raise site; `parseError` is the `ValueError` raised by
`isodate.parse_datetime` on an unparsable string. -/
inductive TimeErr where
  | invalidType (t : String)
  | notString
  | notDict
  | notList
  | parseError (s : String)
  | spanOrder
  | seriesEmpty
  | seriesUnsorted
deriving DecidableEq

/-- The list comprehension `[isodate.parse_datetime(t) for t in self.value]`
(core.py line 57): parses left to right, propagating the first failure. -/
def parseAll {D : Type} (parse : String → Option D) : List String → Except TimeErr (List D)
  | [] => .ok []
  | s :: rest =>
    match parse s with
    | none => .error (.parseError s)
    | some d => (parseAll parse rest).map (fun ds => d :: ds)

/-- Embedding of `Time._validate` (core.py lines 32-61).  The `Series`
branch compares the parsed list with its sorted copy, `times != sorted(times)`;
Python `sorted` is a stable sort on a total order, embedded here with
`List.insertionSort`. -/
def Time.validate {D : Type} [LinearOrder D] (parse : String → Option D) (t : Time) :
    Except TimeErr Unit :=
  if t.type ∉ (["Timestamp", "Span", "Series"] : List String) then
    .error (.invalidType t.type)
  else if t.type = ("Timestamp") then
    match t.value with
    | .vstr s =>
      match parse s with
      | some _ => .ok ()
      | none => .error (.parseError s)
    | _ => .error .notString
  else if t.type = ("Span") then
    match t.value with
    | .vdict entries =>
      match entries.lookup ("start"), entries.lookup ("end") with
      | some s, some e =>
        match parse s with
        | none => .error (.parseError s)
        | some ds =>
          match parse e with
          | none => .error (.parseError e)
          | some de =>
            if ds ≥ de then .error .spanOrder else .ok ()
      | _, _ => .error .notDict
    | _ => .error .notDict
  else
    match t.value with
    | .vlist ts =>
      match parseAll parse ts with
      | .error e => .error e
      | .ok times =>
        if times.isEmpty then .error .seriesEmpty
        else if times ≠ times.insertionSort (fun a b => a ≤ b) then .error .seriesUnsorted
        else .ok ()
    | _ => .error .notList

/-- Embedding of `Time.__init__` (core.py lines 27-30): assign the fields,
run `_validate`; a raise means no object is returned. -/
def Time.new {D : Type} [LinearOrder D] (parse : String → Option D)
    (type : String) (value : TimeVal) : Except TimeErr Time :=
  let t : Time := ⟨type, value⟩
  (t.validate parse).map (fun _ => t)

/-- Classmethod `Time.timestamp` (core.py lines 72-75). -/
def Time.timestamp {D : Type} [LinearOrder D] (parse : String → Option D)
    (s : String) : Except TimeErr Time :=
  Time.new parse ("Timestamp") (.vstr s)

/-- Classmethod `Time.span` (core.py lines 77-80). -/
def Time.span {D : Type} [LinearOrder D] (parse : String → Option D)
    (a b : String) : Except TimeErr Time :=
  Time.new parse ("Span") (.vdict [(("start"), a), (("end"), b)])

/-- Classmethod `Time.series` (core.py lines 82-85). -/
def Time.series {D : Type} [LinearOrder D] (parse : String → Option D)
    (ts : List String) : Except TimeErr Time :=
  Time.new parse ("Series") (.vlist ts)

/-- The dictionary returned by `Time.to_dict` (core.py lines 63-65). -/
structure TimeDict where
  type : String
  value : TimeVal
deriving DecidableEq

/-- Embedding of `Time.to_dict` (core.py lines 63-65). -/
def Time.to_dict (t : Time) : TimeDict := ⟨t.type, t.value⟩

/-- Embedding of `Time.from_dict` (core.py lines 67-70): runs the
constructor, so validation runs again. -/
def Time.from_dict {D : Type} [LinearOrder D] (parse : String → Option D)
    (d : TimeDict) : Except TimeErr Time :=
  Time.new parse d.type d.value

/-! ## Python values, numpy arrays, and a heap of dictionaries -/

/-- A numpy `ndarray` as the nested array structure `tolist` exposes:
either a scalar element or an axis of sub-arrays.  Element values are
rationals (the dtype is erased, matching the spec remark that
dtype/precision is not round-tripped). -/
inductive NdArr where
  | item (x : Rat)
  | axis (elems : List NdArr)

/-- A Python value as it occurs in the `data` and document dictionaries:
JSON-style values plus numpy arrays. -/
inductive PVal where
  | pstr (s : String)
  | pnum (q : Rat)
  | pbool (b : Bool)
  | pnone
  | plist (xs : List PVal)
  | pdict (kvs : List (String × PVal))
  | parr (a : NdArr)

mutual

/-- Embedding of `ndarray.tolist`: the nested list of plain numbers with
the same shape and the same element values. -/
def NdArr.tolist : NdArr → PVal
  | .item x => .pnum x
  | .axis es => .plist (NdArr.tolistAll es)

/-- `tolist` mapped over the sub-arrays of an axis. -/
def NdArr.tolistAll : List NdArr → List PVal
  | [] => []
  | a :: as => a.tolist :: NdArr.tolistAll as

end

/-- Python truthiness of a value, as used by `data.get("visualization")`
in a condition (core.py line 159). -/
def PVal.truthy : PVal → Bool
  | .pstr s => ¬ s.isEmpty
  | .pnum q => q ≠ 0
  | .pbool b => b
  | .pnone => false
  | .plist xs => ¬ xs.isEmpty
  | .pdict kvs => ¬ kvs.isEmpty
  | .parr _ => true

/-- A Python dictionary with string keys, in insertion order. -/
abbrev Dict := List (String × PVal)

/-- Python dict lookup `d[k]`: `KeyError` when the key is absent.  The
error payload is delivered by the caller. -/
def Dict.find (d : Dict) (k : String) : Option PVal := d.lookup k

/-- Python dict item assignment `d[k] = v`: replace in place when the key
exists (keys are unique), append otherwise. -/
def Dict.setItem (d : Dict) (k : String) (v : PVal) : Dict :=
  if (d.lookup k).isSome then
    d.map (fun kv => if kv.1 = k then (k, v) else kv)
  else d ++ [(k, v)]

/-- The store of dictionary objects; a reference is an index into the
store.  Only the `data` dict of a package is ever mutated by the embedded
code, so only it lives in the heap. -/
abbrev Heap := List Dict

/-- Dereference a dict reference. -/
def Heap.get (σ : Heap) (r : Nat) : Dict := σ.getD r []

/-- Allocate a fresh dict object, returning the extended heap and the
fresh reference. -/
def Heap.alloc (σ : Heap) (d : Dict) : Heap × Nat := (σ ++ [d], σ.length)

/-- Overwrite the dict object behind a reference. -/
def Heap.put (σ : Heap) (r : Nat) (d : Dict) : Heap := σ.set r d

/-! ## Geometry (core.py lines 11-21)

The class defines exactly two methods beside `__init__`: nothing called
`to_dict` exists on it. -/

/-- Exceptions of the package layer. -/
inductive PyErr where
  | keyError (k : String)
  | attributeError (obj attr : String)
  | typeError (msg : String)
deriving DecidableEq

/-- The `Geometry` object: the two attributes assigned in
`Geometry.__init__` (core.py lines 14-16).  Python annotates `type` as
`str` but stores whatever arrives, so both fields hold arbitrary values. -/
structure Geometry where
  type : PVal
  value : PVal

/-- Embedding of `Geometry.from_dict` (core.py lines 18-21): subscripts
`data["type"]` and `data["value"]`; `KeyError` when a key is missing,
`TypeError` when the argument is not subscriptable by a string. -/
def Geometry.from_dict (v : PVal) : Except PyErr Geometry :=
  match v with
  | .pdict kvs =>
    match Dict.find kvs ("type") with
    | none => .error (.keyError ("type"))
    | some t =>
      match Dict.find kvs ("value") with
      | none => .error (.keyError ("value"))
      | some val => .ok ⟨t, val⟩
  | _ => .error (.typeError ("geometry document is not a dict"))

/-- Modelled from the spec: the class `Visualization` lives in
`myreze/viz/visualization.py`, which is not part of the shown sources; the
spec (sections 1 and 6) only requires a render-capable handle with a
`to_dict`/`from_dict` pair, so the handle is an opaque payload. -/
structure Visualization where
  payload : PVal

/-- Modelled from the spec: `Visualization.from_dict` reconstructs a
handle from its serialized payload; no claim exercises its internals. -/
def Visualization.from_dict (v : PVal) : Except PyErr Visualization :=
  .ok ⟨v⟩

/-! ## MyrezeDataPackage (core.py lines 88-169) -/

/-- The `MyrezeDataPackage` object: the attributes assigned in `__init__`
(core.py lines 102-109).  `dataRef` is the reference to the mutable `data`
dict; `__init__` never assigns an attribute named `visualization`. -/
structure Package where
  id : String
  geometry : Geometry
  dataRef : Nat
  time : Time
  unreal_visualization : Option Visualization
  threejs_visualization : Option Visualization
  metadata : Dict
  version : String

/-- One iteration of the conversion loop in `to_dict` (core.py lines
119-121): for an item of the copied `data` dict whose value is an ndarray,
assign `data[key] = value.tolist()` through the reference `r` of the copy;
leave every other item untouched. -/
def convStep (r : Nat) (σc : Heap) (kv : String × PVal) : Heap :=
  match kv.2 with
  | .parr a => Heap.put σc r ((Heap.get σc r).setItem kv.1 a.tolist)
  | _ => σc

/-- Embedding of `MyrezeDataPackage.to_dict` (core.py lines 116-132),
returning the raised exception or the produced document, together with the
post-call heap.  Steps of the body, in order:
`data = self.data.copy()` allocates a fresh dict with the same items;
the `for` loop walks those items and assigns `data[key] = value.tolist()`
for every ndarray value, mutating only the fresh copy;
the dict literal then evaluates `self.geometry.to_dict()` — the class
`Geometry` (core.py lines 11-21) defines no method `to_dict`, so this
attribute lookup raises `AttributeError` and the literal (whose later
entry `self.visualization` would also fail, since `__init__` assigns no
such attribute) is never completed. -/
def Package.to_dict (σ : Heap) (p : Package) : Except PyErr Dict × Heap :=
  let items := Heap.get σ p.dataRef
  let σ1 := (σ.alloc items).1
  let r := (σ.alloc items).2
  let σ2 := items.foldl (convStep r) σ1
  (.error (.attributeError ("Geometry") ("to_dict")), σ2)

/-- The key list of the dict literal at core.py lines 122-132, in source
order: the keys `to_dict` would emit had it not raised. -/
def to_dict_literal_keys : List String :=
  ["version", "type", "id", "geometry", "data", "visualization", "metadata"]

/-- Embedding of `MyrezeDataPackage.__init__` (core.py lines 91-110):
assign the attributes (`metadata or` the empty dict literal turns an absent
or empty metadata argument into the empty dict), then run `_validate`, which calls
`validate_mdp(self.to_dict())` (line 114).  `validate_mdp` is imported
from `myreze.data.validate`, a module outside the shown sources, so it is
taken here as an arbitrary function; `to_dict` raises before it can ever
be applied. -/
def Package.init (validate_mdp : Dict → Except PyErr Unit) (σ : Heap)
    (id : String) (geometry : Geometry) (dataRef : Nat) (time : Time)
    (unreal_visualization threejs_visualization : Option Visualization)
    (metadata : Option Dict) (version : String) : Except PyErr Package × Heap :=
  let p : Package :=
    ⟨id, geometry, dataRef, time, unreal_visualization, threejs_visualization,
      (metadata.getD []), version⟩
  match Package.to_dict σ p with
  | (.error e, σ2) => (.error e, σ2)
  | (.ok d, σ2) =>
    match validate_mdp d with
    | .error e => (.error e, σ2)
    | .ok _ => (.ok p, σ2)

/-- Embedding of `MyrezeDataPackage.from_dict` (core.py lines 153-169).
Steps, in Python evaluation order:
`Geometry.from_dict(data["geometry"])` — `KeyError` on a missing
`geometry` key; `data.get("visualization")` with `Visualization.from_dict`
on a truthy value; then the argument expressions of the `cls(...)` call:
`data["id"]`, `data["data"]`, `data.get` of `metadata` with an empty-dict default,
`data["version"]`.  The call itself then raises `TypeError`:
`__init__` (core.py lines 91-101) accepts no keyword named
`visualization`, and its required `time` parameter is never supplied, so
`__init__` never runs and no package is produced. -/
def Package.from_dict (d : Dict) : Except PyErr Package := do
  let g ← match Dict.find d ("geometry") with
    | none => Except.error (PyErr.keyError ("geometry"))
    | some v => Except.ok v
  let _geometry ← Geometry.from_dict g
  let vizval := (Dict.find d ("visualization")).getD .pnone
  let _visualization ← if vizval.truthy then
      (Visualization.from_dict vizval).map some
    else pure none
  let _id ← match Dict.find d ("id") with
    | none => Except.error (PyErr.keyError ("id"))
    | some v => Except.ok v
  let _data ← match Dict.find d ("data") with
    | none => Except.error (PyErr.keyError ("data"))
    | some v => Except.ok v
  let _metadata := (Dict.find d ("metadata")).getD (.pdict [])
  let _version ← match Dict.find d ("version") with
    | none => Except.error (PyErr.keyError ("version"))
    | some v => Except.ok v
  .error (.typeError ("init got an unexpected keyword argument visualization"))

/-- A toy datetime parser used to instantiate the abstract
`isodate.parse_datetime` model at concrete inputs: it maps the two ISO
strings of the specification examples to their temporal order and rejects
every other string. -/
def parseW : String → Option Nat := fun s =>
  if s = ("2023-01-01T00:00:00Z") then some 1
  else if s = ("2023-01-02T00:00:00Z") then some 2
  else none

/-! ## Concrete fixtures for evaluating the package layer -/

/-- A concrete geometry value. -/
def geomW : Geometry :=
  ⟨.pstr ("Point"), .pdict [(("coordinates"), .plist [.pnum 0, .pnum 0])]⟩

/-- A concrete valid instant. -/
def timeW : Time := ⟨("Timestamp"), .vstr ("2023-01-01T00:00:00Z")⟩

/-- A concrete 2 by 2 numpy array. -/
def arrW : NdArr :=
  .axis [.axis [.item 1, .item 2], .axis [.item 3, .item 4]]

/-- A concrete heap holding one data dict, bound by `pkg1`. -/
def heap1 : Heap := [[(("value"), .pnum 42)]]

/-- A concrete package over `heap1`. -/
def pkg1 : Package := ⟨("pkg-1"), geomW, 0, timeW, none, none, [], ("1.0.0")⟩

/-- A concrete heap whose single data dict holds an ndarray under `grid`
and a plain string under `units`. -/
def heap8 : Heap := [[(("grid"), .parr arrW), (("units"), .pstr ("celsius"))]]

/-- A concrete package over `heap8`. -/
def pkg8 : Package := ⟨("pkg-8"), geomW, 0, timeW, none, none, [], ("1.0.0")⟩

/-- A concrete heap for the frame-effect claim. -/
def heap10 : Heap := [[(("grid"), .parr arrW), (("bounds"), .plist [.pnum 0, .pnum 1])]]

/-- A concrete package over `heap10`. -/
def pkg10 : Package := ⟨("pkg-10"), geomW, 0, timeW, none, none, [], ("1.0.0")⟩

/-- A concrete heap for the legacy-key-set claim. -/
def heap3 : Heap := [[(("flow"), .pnum 7)]]

/-- A concrete package over `heap3`. -/
def pkg3 : Package := ⟨("pkg-3"), geomW, 0, timeW, none, none, [], ("1.0.0")⟩

/-- A complete legacy serialized document, holding every key the
specification enumerates as required (`version`, `type`, `id`, `data`,
`time`, `visualization_type`) together with `geometry` and `metadata`. -/
def legacyDoc : Dict :=
  [(("version"), .pstr ("1.0.0")),
   (("type"), .pstr ("MyrezeDataPackage")),
   (("id"), .pstr ("pkg-1")),
   (("geometry"), .pdict [(("type"), .pstr ("Point")), (("value"), .pdict [])]),
   (("data"), .pdict [(("value"), .pnum 42)]),
   (("time"), .pdict [(("type"), .pstr ("Timestamp")),
      (("value"), .pstr ("2023-01-01T00:00:00Z"))]),
   (("visualization_type"), .pstr ("heatmap")),
   (("metadata"), .pdict [])]

/-- The same document with the `geometry` entry removed. -/
def legacyDocNoGeometry : Dict :=
  [(("version"), .pstr ("1.0.0")),
   (("type"), .pstr ("MyrezeDataPackage")),
   (("id"), .pstr ("pkg-1")),
   (("data"), .pdict [(("value"), .pnum 42)]),
   (("time"), .pdict [(("type"), .pstr ("Timestamp")),
      (("value"), .pstr ("2023-01-01T00:00:00Z"))]),
   (("visualization_type"), .pstr ("heatmap")),
   (("metadata"), .pdict [])]

/-- The same document with the `time` entry removed. -/
def legacyDocNoTime : Dict :=
  [(("version"), .pstr ("1.0.0")),
   (("type"), .pstr ("MyrezeDataPackage")),
   (("id"), .pstr ("pkg-1")),
   (("geometry"), .pdict [(("type"), .pstr ("Point")), (("value"), .pdict [])]),
   (("data"), .pdict [(("value"), .pnum 42)]),
   (("visualization_type"), .pstr ("heatmap")),
   (("metadata"), .pdict [])]

end Myreze

namespace Myreze

/-! ## Helper lemmas -/

theorem except_map_error {ε α β : Type} (f : α → β) (e : ε) :
    (Except.error e : Except ε α).map f = .error e := rfl

theorem except_map_ok {ε α β : Type} (f : α → β) (a : α) :
    (Except.ok a : Except ε α).map f = .ok (f a) := rfl

theorem validate_timestamp_eq {D : Type} [LinearOrder D]
    (parse : String → Option D) (s : String) :
    Time.validate parse ⟨("Timestamp"), .vstr s⟩ =
      match parse s with
      | some _ => .ok ()
      | none => .error (.parseError s) := rfl

theorem validate_span_eq {D : Type} [LinearOrder D]
    (parse : String → Option D) (a b : String) :
    Time.validate parse ⟨("Span"), .vdict [(("start"), a), (("end"), b)]⟩ =
      match parse a with
      | none => .error (.parseError a)
      | some ds =>
        match parse b with
        | none => .error (.parseError b)
        | some de => if ds ≥ de then .error .spanOrder else .ok () := rfl

theorem validate_series_eq {D : Type} [LinearOrder D]
    (parse : String → Option D) (ts : List String) :
    Time.validate parse ⟨("Series"), .vlist ts⟩ =
      match parseAll parse ts with
      | .error e => .error e
      | .ok times =>
        if times.isEmpty then .error .seriesEmpty
        else if times ≠ times.insertionSort (fun a b => a ≤ b) then .error .seriesUnsorted
        else .ok () := rfl

theorem parseAll_ok {D : Type} (parse : String → Option D) (ts : List String)
    (h : ∀ s ∈ ts, (parse s).isSome) :
    parseAll parse ts = .ok (ts.filterMap parse) := by
  induction ts with
  | nil => rfl
  | cons s rest ih =>
    obtain ⟨d, hd⟩ := Option.isSome_iff_exists.mp (h s (by simp))
    simp [parseAll, hd, List.filterMap_cons, Except.map,
      ih (fun x hx => h x (List.mem_cons_of_mem s hx))]

theorem parseAll_error {D : Type} (parse : String → Option D) (ts : List String)
    (h : ¬ ∀ s ∈ ts, (parse s).isSome) :
    ∃ s, s ∈ ts ∧ parse s = none ∧ parseAll parse ts = .error (.parseError s) := by
  induction ts with
  | nil => simp at h
  | cons s rest ih =>
    by_cases hs : (parse s).isSome
    · obtain ⟨d, hd⟩ := Option.isSome_iff_exists.mp hs
      have hrest : ¬ ∀ x ∈ rest, (parse x).isSome := by
        intro hall
        refine h (fun x hx => ?_)
        rcases List.mem_cons.mp hx with h1 | h2
        · exact h1 ▸ hs
        · exact hall x h2
      obtain ⟨c, hc1, hc2, hc3⟩ := ih hrest
      exact ⟨c, List.mem_cons_of_mem s hc1, hc2,
        by simp [parseAll, hd, hc3, Except.map]⟩
    · exact ⟨s, List.mem_cons_self s rest,
        Option.not_isSome_iff_eq_none.mp hs,
        by simp [parseAll, Option.not_isSome_iff_eq_none.mp hs]⟩

theorem insertionSort_eq_self_iff {D : Type} [LinearOrder D] (l : List D) :
    l.insertionSort (fun a b => a ≤ b) = l ↔ l.Chain' (fun a b => a ≤ b) := by
  constructor
  · intro h
    have hs := List.sorted_insertionSort (fun a b => a ≤ b) l
    rw [h] at hs
    exact List.chain'_iff_pairwise.mpr hs
  · intro h
    exact List.Sorted.insertionSort_eq (List.chain'_iff_pairwise.mp h)

theorem series_eval {D : Type} [LinearOrder D] (parse : String → Option D)
    (ts : List String) :
    Time.series parse ts =
      ((match parseAll parse ts with
        | .error e => .error e
        | .ok times =>
          if times.isEmpty then .error .seriesEmpty
          else if times ≠ times.insertionSort (fun a b => a ≤ b) then
            .error .seriesUnsorted
          else .ok ()) : Except TimeErr Unit).map
        (fun _ => (⟨("Series"), .vlist ts⟩ : Time)) := rfl

theorem series_eval_ok {D : Type} [LinearOrder D] (parse : String → Option D)
    (ts : List String) (l : List D) (hpa : parseAll parse ts = .ok l) :
    Time.series parse ts =
      ((if l.isEmpty then .error .seriesEmpty
        else if l ≠ l.insertionSort (fun a b => a ≤ b) then .error .seriesUnsorted
        else .ok ()) : Except TimeErr Unit).map
        (fun _ => (⟨("Series"), .vlist ts⟩ : Time)) := by
  rw [series_eval parse ts, hpa]

theorem series_eval_error {D : Type} [LinearOrder D] (parse : String → Option D)
    (ts : List String) (e : TimeErr) (hpa : parseAll parse ts = .error e) :
    Time.series parse ts = .error e := by
  rw [series_eval parse ts, hpa]
  rfl

theorem filterMap_cons_ne_nil {D : Type} (parse : String → Option D)
    (s : String) (rest : List String) (hd : (parse s).isSome) :
    (s :: rest).filterMap parse ≠ [] := by
  obtain ⟨d, hd2⟩ := Option.isSome_iff_exists.mp hd
  simp [List.filterMap_cons, hd2]

theorem heap_get_put_ne (σ : Heap) (r : Nat) (d : Dict) (i : Nat) (hne : i ≠ r) :
    Heap.get (Heap.put σ r d) i = Heap.get σ i := by
  unfold Heap.get Heap.put
  rw [List.getD_eq_getElem?_getD, List.getD_eq_getElem?_getD,
    List.getElem?_set_ne (Ne.symm hne)]

theorem heap_get_append_lt (σ : Heap) (d : Dict) (i : Nat) (h : i < σ.length) :
    Heap.get (σ ++ [d]) i = Heap.get σ i := by
  unfold Heap.get
  rw [List.getD_eq_getElem?_getD, List.getD_eq_getElem?_getD,
    List.getElem?_append_left h]

theorem convStep_get_ne (r i : Nat) (hne : i ≠ r) (σ : Heap) (kv : String × PVal) :
    Heap.get (convStep r σ kv) i = Heap.get σ i := by
  rcases kv with ⟨k, v⟩
  cases v with
  | parr a => exact heap_get_put_ne σ r _ i hne
  | pstr s => rfl
  | pnum q => rfl
  | pbool b => rfl
  | pnone => rfl
  | plist xs => rfl
  | pdict kvs => rfl

theorem foldl_convStep_get_ne (items : List (String × PVal)) (r i : Nat)
    (hne : i ≠ r) (σ0 : Heap) :
    Heap.get (items.foldl (convStep r) σ0) i = Heap.get σ0 i := by
  induction items generalizing σ0 with
  | nil => rfl
  | cons kv rest ih =>
    rw [List.foldl_cons, ih (convStep r σ0 kv), convStep_get_ne r i hne σ0 kv]

/-! ## Claims about Time -/

/-- C4: for every list of timestamp strings, `Time.series(values)`
construction succeeds if and only if the list is non-empty, every entry is
parsable, and the parsed entries are in non-decreasing order; an
out-of-order list of parsable entries fails with the sorted-order error
(the `TemporalOrderError` of the specification taxonomy). -/
theorem series_construction_iff {D : Type} [LinearOrder D]
    (parse : String → Option D) (ts : List String) :
    ((∃ t, Time.series parse ts = .ok t) ↔
        ts ≠ [] ∧ (∀ s ∈ ts, (parse s).isSome)
          ∧ (ts.filterMap parse).Chain' (fun a b => a ≤ b))
  ∧ ((∀ s ∈ ts, (parse s).isSome) →
      ¬ (ts.filterMap parse).Chain' (fun a b => a ≤ b) →
      Time.series parse ts = .error .seriesUnsorted) := by
  by_cases hall : ∀ s ∈ ts, (parse s).isSome
  · have heval := series_eval_ok parse ts (ts.filterMap parse)
      (parseAll_ok parse ts hall)
    constructor
    · constructor
      · rintro ⟨t, ht⟩
        rw [heval] at ht
        by_cases h1 : (ts.filterMap parse).isEmpty
        · rw [if_pos h1] at ht
          simp [except_map_error] at ht
        · rw [if_neg h1] at ht
          by_cases h2 : ts.filterMap parse
              ≠ (ts.filterMap parse).insertionSort (fun a b => a ≤ b)
          · rw [if_pos h2] at ht
            simp [except_map_error] at ht
          · push_neg at h2
            refine ⟨?_, hall, (insertionSort_eq_self_iff _).mp h2.symm⟩
            intro hnil
            rw [hnil] at h1
            simp at h1
      · rintro ⟨hne, -, hchain⟩
        have hsorted := (insertionSort_eq_self_iff (ts.filterMap parse)).mpr hchain
        have h1 : ¬ (ts.filterMap parse).isEmpty := by
          cases ts with
          | nil => exact absurd rfl hne
          | cons s rest =>
            simp only [List.isEmpty_iff]
            exact filterMap_cons_ne_nil parse s rest (hall s (by simp))
        refine ⟨⟨("Series"), .vlist ts⟩, ?_⟩
        rw [heval, if_neg h1, if_neg (by simp [hsorted])]
        rfl
    · intro _ hchain
      have h2 : ts.filterMap parse
          ≠ (ts.filterMap parse).insertionSort (fun a b => a ≤ b) := by
        intro he
        exact hchain ((insertionSort_eq_self_iff _).mp he.symm)
      have h1 : ¬ (ts.filterMap parse).isEmpty := by
        intro he
        refine hchain ?_
        rw [List.isEmpty_iff.mp he]
        exact List.chain'_nil
      rw [heval, if_neg h1, if_pos h2]
      rfl
  · obtain ⟨c, hc1, hc2, hc3⟩ := parseAll_error parse ts hall
    have heval := series_eval_error parse ts _ hc3
    refine ⟨⟨?_, ?_⟩, ?_⟩
    · rintro ⟨t, ht⟩
      rw [heval] at ht
      simp at ht
    · rintro ⟨-, hall2, -⟩
      exact absurd hall2 hall
    · intro hall2 _
      exact absurd hall2 hall

/-- Witness for series_construction_iff: the out-of-order example of the
specification fails with the sorted-order error, and the in-order example
succeeds. -/
theorem series_construction_iff_witness :
    Time.series parseW [("2023-01-02T00:00:00Z"), ("2023-01-01T00:00:00Z")]
        = .error .seriesUnsorted
  ∧ (∃ t, Time.series parseW [("2023-01-01T00:00:00Z"), ("2023-01-02T00:00:00Z")]
        = .ok t) :=
  ⟨(series_construction_iff parseW
      [("2023-01-02T00:00:00Z"), ("2023-01-01T00:00:00Z")]).2
        (by decide) (by simp [parseW, List.filterMap_cons]),
   (series_construction_iff parseW
      [("2023-01-01T00:00:00Z"), ("2023-01-02T00:00:00Z")]).1.mpr
        ⟨by decide, by decide, by simp [parseW, List.filterMap_cons]⟩⟩

/-- C5: for every Time variant built through the `timestamp`, `span` and
`series` classmethods, if any contained timestamp string is unparsable
then construction fails with the parse error (the `TemporalFormatError`
of the specification taxonomy) and no Time value is produced. -/
theorem time_unparsable_rejected {D : Type} [LinearOrder D]
    (parse : String → Option D) :
    (∀ s, parse s = none → Time.timestamp parse s = .error (.parseError s))
  ∧ (∀ a b, (parse a = none ∨ parse b = none) →
      ∃ c, parse c = none ∧ Time.span parse a b = .error (.parseError c))
  ∧ (∀ ts, (∃ s, s ∈ ts ∧ parse s = none) →
      ∃ c, c ∈ ts ∧ parse c = none
        ∧ Time.series parse ts = .error (.parseError c)) := by
  refine ⟨?_, ?_, ?_⟩
  · intro s hs
    rw [show Time.timestamp parse s
        = (Time.validate parse ⟨("Timestamp"), .vstr s⟩).map
            (fun _ => (⟨("Timestamp"), .vstr s⟩ : Time)) from rfl,
      validate_timestamp_eq, hs]
    rfl
  · intro a b hab
    have hspan : Time.span parse a b
        = (Time.validate parse ⟨("Span"), .vdict [(("start"), a), (("end"), b)]⟩).map
            (fun _ => (⟨("Span"), .vdict [(("start"), a), (("end"), b)]⟩ : Time)) := rfl
    rcases ha : parse a with _ | da
    · refine ⟨a, ha, ?_⟩
      rw [hspan, validate_span_eq, ha]
      rfl
    · rcases hb : parse b with _ | db
      · refine ⟨b, hb, ?_⟩
        rw [hspan, validate_span_eq, ha, hb]
        rfl
      · rcases hab with h | h
        · rw [ha] at h
          exact absurd h (by simp)
        · rw [hb] at h
          exact absurd h (by simp)
  · intro ts hex
    have hnall : ¬ ∀ s ∈ ts, (parse s).isSome := by
      obtain ⟨s, hs1, hs2⟩ := hex
      intro hall
      have hsome := hall s hs1
      rw [hs2] at hsome
      simp at hsome
    obtain ⟨c, hc1, hc2, hc3⟩ := parseAll_error parse ts hnall
    exact ⟨c, hc1, hc2, series_eval_error parse ts _ hc3⟩

/-- Witness for time_unparsable_rejected: a string the parser rejects is
refused by all three constructors. -/
theorem time_unparsable_rejected_witness :
    Time.timestamp parseW ("oops") = .error (.parseError ("oops"))
  ∧ (∃ c, parseW c = none
      ∧ Time.span parseW ("oops") ("2023-01-02T00:00:00Z") = .error (.parseError c))
  ∧ (∃ c, c ∈ [("2023-01-01T00:00:00Z"), ("oops")] ∧ parseW c = none
      ∧ Time.series parseW [("2023-01-01T00:00:00Z"), ("oops")]
          = .error (.parseError c)) :=
  ⟨(time_unparsable_rejected parseW).1 ("oops") (by decide),
   (time_unparsable_rejected parseW).2.1 ("oops") ("2023-01-02T00:00:00Z")
     (Or.inl (by decide)),
   (time_unparsable_rejected parseW).2.2 [("2023-01-01T00:00:00Z"), ("oops")]
     ⟨("oops"), by decide, by decide⟩⟩

/-- C6: for parsable strings, `Time.span(start, end)` fails with the
span-order error (the `TemporalOrderError` of the specification taxonomy)
if and only if the parsed start is greater than or equal to the parsed
end, and otherwise succeeds with the stored start and end strings. -/
theorem span_order_check {D : Type} [LinearOrder D] (parse : String → Option D)
    (a b : String) (da db : D) (ha : parse a = some da) (hb : parse b = some db) :
    (Time.span parse a b = .error .spanOrder ↔ db ≤ da)
  ∧ (da < db →
      Time.span parse a b
        = .ok ⟨("Span"), .vdict [(("start"), a), (("end"), b)]⟩) := by
  have heval : Time.span parse a b
      = (if da ≥ db then Except.error TimeErr.spanOrder else Except.ok ()).map
          (fun _ => (⟨("Span"), .vdict [(("start"), a), (("end"), b)]⟩ : Time)) := by
    rw [show Time.span parse a b
        = (Time.validate parse ⟨("Span"), .vdict [(("start"), a), (("end"), b)]⟩).map
            (fun _ => (⟨("Span"), .vdict [(("start"), a), (("end"), b)]⟩ : Time)) from rfl,
      validate_span_eq, ha, hb]
  by_cases hge : da ≥ db
  · rw [if_pos hge] at heval
    refine ⟨⟨fun _ => hge, fun _ => by rw [heval]; rfl⟩, fun hlt => ?_⟩
    exact absurd hge (not_le.mpr hlt)
  · rw [if_neg hge] at heval
    refine ⟨⟨fun h => ?_, fun h => absurd h hge⟩, fun _ => by rw [heval]; rfl⟩
    rw [heval] at h
    exact absurd h (by simp [except_map_ok])

/-- Witness for span_order_check: a reversed span fails with the
span-order error; an ordered span succeeds. -/
theorem span_order_check_witness :
    Time.span parseW ("2023-01-02T00:00:00Z") ("2023-01-01T00:00:00Z")
        = .error .spanOrder
  ∧ Time.span parseW ("2023-01-01T00:00:00Z") ("2023-01-02T00:00:00Z")
      = .ok ⟨("Span"), .vdict [(("start"), ("2023-01-01T00:00:00Z")),
          (("end"), ("2023-01-02T00:00:00Z"))]⟩ :=
  ⟨(span_order_check parseW ("2023-01-02T00:00:00Z") ("2023-01-01T00:00:00Z")
      2 1 (by decide) (by decide)).1.mpr (by decide),
   (span_order_check parseW ("2023-01-01T00:00:00Z") ("2023-01-02T00:00:00Z")
      1 2 (by decide) (by decide)).2 (by decide)⟩

/-- C9: for every parsable string, the instant built from it survives a
`to_dict` / `from_dict` round trip with the same kind tag and the same
timestamp string. -/
theorem timestamp_roundtrip {D : Type} [LinearOrder D] (parse : String → Option D)
    (s : String) (h : (parse s).isSome) :
    Time.timestamp parse s = .ok ⟨("Timestamp"), .vstr s⟩
  ∧ Time.from_dict parse (Time.to_dict ⟨("Timestamp"), .vstr s⟩)
      = .ok ⟨("Timestamp"), .vstr s⟩ := by
  obtain ⟨d, hd⟩ := Option.isSome_iff_exists.mp h
  have hts : Time.timestamp parse s = .ok ⟨("Timestamp"), .vstr s⟩ := by
    rw [show Time.timestamp parse s
        = (Time.validate parse ⟨("Timestamp"), .vstr s⟩).map
            (fun _ => (⟨("Timestamp"), .vstr s⟩ : Time)) from rfl,
      validate_timestamp_eq, hd]
    rfl
  exact ⟨hts, hts⟩

/-- Witness for timestamp_roundtrip at a concrete ISO string. -/
theorem timestamp_roundtrip_witness :
    Time.from_dict parseW (Time.to_dict ⟨("Timestamp"), .vstr ("2023-01-01T00:00:00Z")⟩)
      = .ok ⟨("Timestamp"), .vstr ("2023-01-01T00:00:00Z")⟩ :=
  (timestamp_roundtrip parseW ("2023-01-01T00:00:00Z") (by decide)).2

/-! ## Claims about MyrezeDataPackage -/

/-- C1 (code-bug evidence): the serialization leg of the round trip
raises on every package; here, on a concrete valid package, `to_dict`
raises `AttributeError` because `Geometry` defines no `to_dict` method, so
`from_portable_form(to_portable_form(p))` can never reproduce any
package. -/
theorem to_dict_roundtrip_crashes :
    (Package.to_dict heap1 pkg1).1
      = .error (.attributeError ("Geometry") ("to_dict")) :=
  rfl

/-- C2 (code-bug evidence): for every argument list and every behaviour
of the external `validate_mdp`, the constructor raises `AttributeError`
out of `_validate` before any validation of the data payload can run, so
construction never succeeds, even on fully valid input. -/
theorem init_always_raises (validate_mdp : Dict → Except PyErr Unit) (σ : Heap)
    (id : String) (geometry : Geometry) (dataRef : Nat) (time : Time)
    (uv tv : Option Visualization) (metadata : Option Dict) (version : String) :
    (Package.init validate_mdp σ id geometry dataRef time uv tv metadata version).1
      = .error (.attributeError ("Geometry") ("to_dict")) :=
  rfl

/-- C3 (code-bug evidence): the legacy serialized form never materializes
(`to_dict` raises), and the key set of its dict literal is not the claimed
one: it lacks `time` and `visualization_type` and holds a `visualization`
key instead. -/
theorem to_dict_legacy_keys_bug :
    (Package.to_dict heap3 pkg3).1
        = .error (.attributeError ("Geometry") ("to_dict"))
  ∧ (("time") ∉ to_dict_literal_keys
      ∧ ("visualization_type") ∉ to_dict_literal_keys
      ∧ ("visualization") ∈ to_dict_literal_keys) :=
  ⟨rfl, by decide⟩

/-- C7 (code-bug evidence): `from_dict` raises `TypeError` even on a
complete document holding all enumerated required keys; it requires the
`geometry` key, which is outside the enumerated list; and a document
lacking `time` is not rejected with a missing-key error naming `time` but
with the same unconditional `TypeError`. -/
theorem from_dict_always_typeerror :
    Package.from_dict legacyDoc
        = .error (.typeError ("init got an unexpected keyword argument visualization"))
  ∧ Package.from_dict legacyDocNoGeometry = .error (.keyError ("geometry"))
  ∧ Package.from_dict legacyDocNoTime
        = .error (.typeError ("init got an unexpected keyword argument visualization")) :=
  ⟨rfl, rfl, rfl⟩

/-- C8 (code-bug evidence): the conversion loop itself does rewrite the
copied data dict, turning the ndarray under `grid` into the nested list
of the same shape and values and leaving the non-array `units` entry
unchanged, but `to_dict` still raises before any serialized form holding
that converted data is returned. -/
theorem to_dict_array_conversion_bug :
    Heap.get ((Package.to_dict heap8 pkg8).2) 1
        = [(("grid"), .plist [.plist [.pnum 1, .pnum 2], .plist [.pnum 3, .pnum 4]]),
           (("units"), .pstr ("celsius"))]
  ∧ (Package.to_dict heap8 pkg8).1
        = .error (.attributeError ("Geometry") ("to_dict")) :=
  ⟨rfl, rfl⟩

/-- C10: serializing a package mutates only the freshly allocated copy of
its data dict: for every heap and package whose data reference is live,
the dict behind the package data reference is unchanged after `to_dict`
(numeric arrays are not replaced by lists in the package itself), and the
package value holds no other mutable state. -/
theorem to_dict_preserves_package_data (σ : Heap) (p : Package)
    (h : p.dataRef < σ.length) :
    Heap.get ((Package.to_dict σ p).2) p.dataRef = Heap.get σ p.dataRef := by
  have h2 : (Package.to_dict σ p).2
      = (Heap.get σ p.dataRef).foldl (convStep σ.length)
          (σ ++ [Heap.get σ p.dataRef]) := rfl
  rw [h2, foldl_convStep_get_ne _ _ _ (Nat.ne_of_lt h), heap_get_append_lt σ _ _ h]

/-- Witness for to_dict_preserves_package_data: a package whose data
holds an ndarray still binds the original ndarray after serialization is
attempted. -/
theorem to_dict_preserves_package_data_witness :
    Heap.get ((Package.to_dict heap10 pkg10).2) pkg10.dataRef
      = Heap.get heap10 pkg10.dataRef :=
  to_dict_preserves_package_data heap10 pkg10 (by decide)

end Myreze
